import Mathlib

/-!
# Verification of the career-risk scoring engine

Shallow embedding of `src/pages/api/score.ts` (the risk scoring and
narrative-augmentation handler) of the `career-risk-calculator2`
repository, together with theorems settling the specification claims
about it.

JavaScript numbers are modelled as exact rationals; `Math.round` is
modelled as round-half-up (floor of x + 1/2), which is its behaviour on
finite numbers.  Strings are Lean strings; `String.prototype.trim` is
modelled by `String.trim` (identical on the ASCII whitespace arising
here).  The external collaborators (Supabase storage, the Deepseek
narrative service) are modelled at their interface boundary: their
outcome is a parameter of the function that consumes it, exactly as the
handler only observes that outcome.
-/

namespace CareerRisk

/-- The request body type `Payload` of `score.ts` (lines 6–20), fields in
source order.  Numeric fields are rationals; `noticePeriodDays` is kept
optional because line 96 defaults a missing value (`p.noticePeriodDays ?? 30`). -/
structure Payload where
  fullName : String
  email : String
  dateOfBirth : Option String
  gender : Option String
  employmentStatus : Option String
  totalExperience : ℚ
  skillProficiencyAvg : ℚ
  trainingHours12mo : ℚ
  performanceRating : ℚ
  linkedinNetworkSize : String
  willingToRelocate : String
  preferredWorkModel : Option String
  noticePeriodDays : Option ℚ
deriving DecidableEq, Repr

/-- `clamp(v, a=0, b=100)` of `score.ts` line 22: `Math.max(a, Math.min(b, v))`.
It is only ever called at the integer result of `Math.round` with the default
bounds, so it is given here over the integers with explicit bounds. -/
def clamp (v a b : ℤ) : ℤ := max a (min b v)

/-- `Math.round` on finite numbers: round half toward positive infinity. -/
def jround (q : ℚ) : ℤ := ⌊q + 1/2⌋

/-- The six-coefficient weight vector (shape of `DEFAULT_WEIGHTS` and of a
well-formed stored `weights` row). -/
structure WeightVector where
  skills : ℚ
  performance : ℚ
  network : ℚ
  mobility : ℚ
  notice : ℚ
  plateau : ℚ
deriving DecidableEq, Repr

/-- `DEFAULT_WEIGHTS` of `score.ts` lines 24–31. -/
def DEFAULT_WEIGHTS : WeightVector :=
  ⟨0.28, 0.22, 0.18, 0.12, 0.12, 0.08⟩

/-- A stored `weights` JSON value as the handler actually receives it: each of
the six fields may be absent (the row's JSON is not validated anywhere in
`score.ts`, so a malformed object reaches the arithmetic as-is). -/
structure LooseWeights where
  skills : Option ℚ
  performance : Option ℚ
  network : Option ℚ
  mobility : Option ℚ
  notice : Option ℚ
  plateau : Option ℚ
deriving DecidableEq, Repr

/-- View a well-formed weight vector as a loose stored value (every field present). -/
def looseOf (w : WeightVector) : LooseWeights :=
  ⟨some w.skills, some w.performance, some w.network,
   some w.mobility, some w.notice, some w.plateau⟩

/-- Weight resolution, `score.ts` lines 82–83:
`const weights = wdata?.weights ?? DEFAULT_WEIGHTS`.
The argument models the query outcome: `none` is a nullish `wdata` (no row,
query error, storage unavailable — the destructuring ignores the `error`
field, so all of these surface as `data = null`); `some none` is a row whose
`weights` column is null/absent; `some (some lw)` is a row with a present
`weights` JSON value, taken as-is. -/
def resolveWeights : Option (Option LooseWeights) → LooseWeights
  | some (some lw) => lw
  | _ => looseOf DEFAULT_WEIGHTS

/-- `score.ts` line 86: `skillsRisk = 100 - (p.skillProficiencyAvg/5)*100`. -/
def skillsRisk (p : Payload) : ℚ := 100 - (p.skillProficiencyAvg / 5) * 100

/-- `score.ts` line 87: `performanceRisk = 100 - (p.performanceRating/5)*100`. -/
def performanceRisk (p : Payload) : ℚ := 100 - (p.performanceRating / 5) * 100

/-- The own data properties of the `networkMap` object literal of
`score.ts` lines 88–93, as a lookup: `some` on its four keys (note the
spaces in the first and last keys and the en-dashes in the middle two),
`none` when the literal has no own property of that name.  The prototype
chain a JS bracket lookup also traverses is modelled in `networkMapJs`. -/
def networkMap (s : String) : Option ℚ :=
  if s = "< 500" then some 70
  else if s = "500–1,000" then some 50
  else if s = "1,001–5,000" then some 30
  else if s = "> 5,000" then some 10
  else none

/-- `score.ts` line 94, `networkRisk = networkMap[p.linkedinNetworkSize] ?? 60`,
restricted to its numeric case: for a `linkedinNetworkSize` that is not an
inherited `Object.prototype` property name this is exactly what the code
computes (see the bridge clause proved about `networkRiskJs`); on the
twelve inherited names the code's value is a non-number instead, which
this rational-valued restriction cannot represent — `networkRiskJs` is the
full model of the line. -/
def networkRisk (p : Payload) : ℚ := (networkMap p.linkedinNetworkSize).getD 60

/-- Result of the JS bracket lookup `networkMap[s]` on the object literal of
`score.ts` lines 88–93 under full JS semantics: a numeric own property, a
non-nullish value inherited from `Object.prototype` (a built-in function,
or the prototype object itself for the `__proto__` accessor), or
`undefined`. -/
inductive BracketLookup where
  | ownNum (q : ℚ)
  | protoValue
  | undef
deriving DecidableEq, Repr

/-- The property names an object literal inherits from `Object.prototype`
(ES standard), each of which reads as a non-nullish value through a
bracket lookup. -/
def objectProtoKeys : List String :=
  ["constructor", "hasOwnProperty", "isPrototypeOf", "propertyIsEnumerable",
   "toLocaleString", "toString", "valueOf", "__proto__",
   "__defineGetter__", "__defineSetter__", "__lookupGetter__", "__lookupSetter__"]

/-- The bracket lookup of `score.ts` line 94 with the prototype chain: an
own key of the literal wins, otherwise an inherited `Object.prototype`
property name reads as a non-nullish value, otherwise the lookup is
`undefined`. -/
def networkMapJs (s : String) : BracketLookup :=
  match networkMap s with
  | some q => BracketLookup.ownNum q
  | none =>
      if s ∈ objectProtoKeys then BracketLookup.protoValue else BracketLookup.undef

/-- `score.ts` line 94 under full JS semantics:
`networkMap[s] ?? 60` is the own number on the four table keys, 60 when the
lookup is `undefined`, and not a number at all — `none` here — when `s`
names an inherited `Object.prototype` property, because `??` does not fire
on a non-nullish inherited value (downstream, that non-number poisons the
weighted sum to NaN). -/
def networkRiskJs (s : String) : Option ℚ :=
  match networkMapJs s with
  | BracketLookup.ownNum q => some q
  | BracketLookup.protoValue => none
  | BracketLookup.undef => some 60

/-- `score.ts` line 95: `mobilityRisk = p.willingToRelocate === 'Yes' ? 10 : 40`. -/
def mobilityRisk (p : Payload) : ℚ := if p.willingToRelocate = "Yes" then 10 else 40

/-- `score.ts` line 96: `const notice = Number(p.noticePeriodDays ?? 30)`
(`Number` is the identity on a number, and the default is taken on a
missing field). -/
def noticeDays (p : Payload) : ℚ := p.noticePeriodDays.getD 30

/-- `score.ts` lines 97–102: the notice-period step function, thresholds
checked from highest to lowest, initial value 10. -/
def noticeRisk (p : Payload) : ℚ :=
  if noticeDays p ≥ 90 then 80
  else if noticeDays p ≥ 60 then 70
  else if noticeDays p ≥ 30 then 50
  else if noticeDays p ≥ 15 then 30
  else if noticeDays p ≥ 7 then 20
  else 10

/-- `score.ts` line 103: `plateauRisk = p.totalExperience >= 12 ? 40 : 20`. -/
def plateauRisk (p : Payload) : ℚ := if p.totalExperience ≥ 12 then 40 else 20

/-- The six computed factors (the `risk_details` object of `score.ts` line 168). -/
structure FactorSet where
  skillsRisk : ℚ
  performanceRisk : ℚ
  networkRisk : ℚ
  mobilityRisk : ℚ
  noticeRisk : ℚ
  plateauRisk : ℚ
deriving DecidableEq, Repr

/-- The factor computation of `score.ts` lines 86–103 packaged as one map
from the payload to the six factors. -/
def computeFactors (p : Payload) : FactorSet :=
  ⟨skillsRisk p, performanceRisk p, networkRisk p,
   mobilityRisk p, noticeRisk p, plateauRisk p⟩

/-- `score.ts` lines 105–110: the raw weighted sum of the six factors. -/
def rawScore (f : FactorSet) (w : WeightVector) : ℚ :=
  f.skillsRisk * w.skills +
  f.performanceRisk * w.performance +
  f.networkRisk * w.network +
  f.mobilityRisk * w.mobility +
  f.noticeRisk * w.notice +
  f.plateauRisk * w.plateau

/-- `score.ts` line 112: `const score = clamp(Math.round(raw))`. -/
def score (f : FactorSet) (w : WeightVector) : ℤ :=
  clamp (jround (rawScore f w)) 0 100

/-- The categorical tier of the response. -/
inductive Tier where
  | Low
  | Medium
  | High
deriving DecidableEq, Repr

/-- `score.ts` line 113: `score <= 30 ? 'Low' : score <= 60 ? 'Medium' : 'High'`. -/
def tier (s : ℤ) : Tier :=
  if s ≤ 30 then Tier.Low else if s ≤ 60 then Tier.Medium else Tier.High

/-- One entry of the `explainability` array of `score.ts` lines 115–122. -/
structure ExplainEntry where
  factor : String
  value : ℚ
  text : String
deriving DecidableEq, Repr

/-- The `explainability` array of `score.ts` lines 115–122.  The skills and
performance values go through `Math.round`; the other four are used as
computed.  Template literals render the interpolated number. -/
def explainability (p : Payload) : List ExplainEntry :=
  [⟨"Skills relevance", (jround (skillsRisk p) : ℚ),
    "Skill-related risk is " ++ toString (jround (skillsRisk p)) ++ "."⟩,
   ⟨"Performance", (jround (performanceRisk p) : ℚ),
    "Performance risk " ++ toString (jround (performanceRisk p)) ++ "."⟩,
   ⟨"Network", networkRisk p,
    "Network risk " ++ toString (networkRisk p) ++ "."⟩,
   ⟨"Mobility", mobilityRisk p,
    if p.willingToRelocate = "Yes" then "Mobility lowers risk."
    else "Limited mobility increases risk."⟩,
   ⟨"Notice period", noticeRisk p,
    "Notice period risk " ++ toString (noticeRisk p) ++ "."⟩,
   ⟨"Experience plateau", plateauRisk p,
    if plateauRisk p = 40 then "Possible plateau." else "Balanced tenure."⟩]

/-- Outcome of `JSON.parse(rawText)` followed by the two field reads of
`score.ts` lines 135–137: on success the handler only observes the
(possibly absent) `narrative` and `recommendations` fields; `err` is a
parse exception. -/
inductive JsonParseResult where
  | ok (narrative : Option String) (recommendations : Option (List String))
  | err
deriving DecidableEq, Repr

/-- Outcome of the `deepseekGenerate` call of `score.ts` lines 130–132:
`ok rawText` carries the extracted raw text
(`resp.text ?? resp.choices[0]?.text ?? ''`) together with the result of
attempting to JSON-parse that text; `callFailure` is any throw during the
call (timeout, non-2xx, network failure), caught at line 144. -/
inductive ServiceOutcome where
  | ok (rawText : String) (parse : JsonParseResult)
  | callFailure
deriving DecidableEq, Repr

/-- The pair `llmNarrative` / `llmRecommendations` of `score.ts` lines 126–147. -/
structure NarrativeResult where
  narrative : Option String
  recommendations : List String
deriving DecidableEq, Repr

/-- Helper for `splitNl`: split a character list at every newline,
keeping empty segments (structural recursion so the kernel can evaluate). -/
def splitNlChars : List Char → List String
  | [] => [""]
  | c :: cs =>
      let rest := splitNlChars cs
      if c = '\n' then "" :: rest
      else
        match rest with
        | [] => [String.mk [c]]
        | l :: ls => String.mk (c :: l.data) :: ls

/-- JS `String.prototype.split('\n')`: the list of segments between
newlines, with empty segments kept (`"".split('\n')` is `[""]`). -/
def splitNl (s : String) : List String := splitNlChars s.data

/-- The whitespace characters stripped by JS `String.prototype.trim`
(restricted to the ASCII range, which is all that arises here). -/
def isJsSpace (c : Char) : Bool :=
  c = ' ' || c = '\t' || c = '\n' || c = '\r' || c = '\x0b' || c = '\x0c'

/-- JS `String.prototype.trim`: strip leading and trailing whitespace. -/
def jsTrim (s : String) : String :=
  String.mk (((s.data.dropWhile isJsSpace).reverse.dropWhile isJsSpace).reverse)

/-- JS truthiness of a string (`filter(Boolean)`): true iff non-empty. -/
def jsNonEmpty (s : String) : Bool := !s.data.isEmpty

/-- `score.ts` line 142, the JSON-parse-failure fallback:
`rawText.split('\n').slice(0,5).map(s => s.trim()).filter(Boolean)` —
take the first five lines, trim each, then drop the empty ones. -/
def fallbackRecommendations (rawText : String) : List String :=
  (((splitNl rawText).take 5).map jsTrim).filter jsNonEmpty

/-- `score.ts` lines 134–143: on a parsed JSON object use
`parsed.narrative ?? rawText` and `parsed.recommendations ?? []`; on a parse
exception use the whole raw text as the narrative and the line fallback. -/
def parseNarrative (rawText : String) : JsonParseResult → NarrativeResult
  | JsonParseResult.ok n r => ⟨some (n.getD rawText), r.getD []⟩
  | JsonParseResult.err => ⟨some rawText, fallbackRecommendations rawText⟩

/-- `score.ts` lines 126–147 as a whole: the narrative data reaching the
persistence and response code, for each service outcome.  A call failure
leaves the initial values `llmNarrative = null`, `llmRecommendations = []`. -/
def narrativeResult : ServiceOutcome → NarrativeResult
  | ServiceOutcome.ok raw pr => parseNarrative raw pr
  | ServiceOutcome.callFailure => ⟨none, []⟩

/-- The caller-visible outcome of the handler after scoring: either the
500 body of `score.ts` line 175 (primary insert failed) or the 200 body of
line 195. -/
inductive ApiResponse where
  | serverError (msg : String)
  | success (score : ℤ) (tier : Tier) (explainability : List ExplainEntry)
      (recommendations : List String) (profileId : String)
deriving DecidableEq, Repr

/-- `score.ts` lines 172–195, the tail of the handler after factors and
weights are fixed: `primary` is the outcome of the `profiles` insert
(`error msg` returns the 500 of line 175; `ok rowId` carries the returned
row id used as `profileId` at line 195); `secondary` is the outcome of the
`llm_outputs` insert, whose failure is caught at line 190 and only logged —
the response is built without ever inspecting it.  Line 195 substitutes a
placeholder when the recommendation list is empty. -/
def handlerTail (p : Payload) (w : WeightVector) (o : ServiceOutcome)
    (primary : Except String String) (_secondary : Except Unit Unit) : ApiResponse :=
  match primary with
  | Except.error msg => ApiResponse.serverError msg
  | Except.ok rowId =>
      let nr := narrativeResult o
      ApiResponse.success (score (computeFactors p) w)
        (tier (score (computeFactors p) w))
        (explainability p)
        (if nr.recommendations.isEmpty then ["See dashboard for recommended actions."]
         else nr.recommendations)
        rowId

/-- The `score` field of the response, when the response is a success. -/
def respScore : ApiResponse → Option ℤ
  | ApiResponse.serverError _ => none
  | ApiResponse.success s _ _ _ _ => some s

/-- The `tier` field of the response, when the response is a success. -/
def respTier : ApiResponse → Option Tier
  | ApiResponse.serverError _ => none
  | ApiResponse.success _ t _ _ _ => some t

/-- The `explainability` field of the response, when the response is a success. -/
def respExplain : ApiResponse → Option (List ExplainEntry)
  | ApiResponse.serverError _ => none
  | ApiResponse.success _ _ e _ _ => some e

/-- A concrete payload used in witnesses and counterexamples; the varying
factor inputs are arguments, the identity fields are fixed. -/
def mkPayload (spa pr : ℚ) (net reloc : String) (nd : Option ℚ) (te : ℚ) : Payload :=
  ⟨"Ada Example", "ada@example.com", none, none, some "Employed",
   te, spa, 40, pr, net, reloc, none, nd⟩

/-- A representative in-range payload. -/
def basePayload : Payload := mkPayload 3 3 "500–1,000" "Yes" (some 30) 5

/-- The stored weight value of the C6 counterexample: a present but
malformed `weights` JSON with five of the six coefficients missing. -/
def malformedWeights : LooseWeights := ⟨some 0.5, none, none, none, none, none⟩

/-- What the spec's words for the fallback prescribe, for comparison with
`fallbackRecommendations`: "splitting the raw text into lines, taking the
first 5 non-empty trimmed lines" — trim and filter every line, then take 5. -/
def firstFiveNonEmptyTrimmedLines (rawText : String) : List String :=
  ((((splitNl rawText).map jsTrim).filter jsNonEmpty).take 5)

/-- A raw text whose first line is blank, separating the two fallback readings. -/
def blankFirstLineText : String := "\na\nb\nc\nd\ne"

/-- A raw service text that is valid JSON carrying six recommendations. -/
def sixRecJsonText : String :=
  "\x7b\"narrative\":\"n\",\"recommendations\":[\"r1\",\"r2\",\"r3\",\"r4\",\"r5\",\"r6\"]\x7d"

/-- Shared bound: the line fallback never yields more than five strings. -/
theorem fallbackRecommendations_length_le (raw : String) :
    (fallbackRecommendations raw).length ≤ 5 := by
  calc ((((splitNl raw).take 5).map jsTrim).filter jsNonEmpty).length
      ≤ (((splitNl raw).take 5).map jsTrim).length := List.length_filter_le _ _
    _ = ((splitNl raw).take 5).length := by rw [List.length_map]
    _ ≤ 5 := by rw [List.length_take]; exact min_le_left _ _

/-- C1: for every factor set and weight vector, the raw score is the exact
dot product of the six factors with their paired weights, the final score
is that dot product rounded to the nearest integer (round half up, within
1/2 of the raw value) and then clamped to the interval from 0 to 100, and
the final score always lies in that interval.  Non-negativity of the
weights is not even needed. -/
theorem score_is_clamped_rounded_dot_product (f : FactorSet) (w : WeightVector) :
    rawScore f w =
      f.skillsRisk * w.skills + f.performanceRisk * w.performance +
      f.networkRisk * w.network + f.mobilityRisk * w.mobility +
      f.noticeRisk * w.notice + f.plateauRisk * w.plateau ∧
    score f w = clamp (jround (rawScore f w)) 0 100 ∧
    rawScore f w - 1/2 ≤ (jround (rawScore f w) : ℚ) ∧
    (jround (rawScore f w) : ℚ) ≤ rawScore f w + 1/2 ∧
    0 ≤ score f w ∧ score f w ≤ 100 := by
  refine ⟨rfl, rfl, ?_, ?_, ?_, ?_⟩
  · have h := Int.lt_floor_add_one (rawScore f w + 1/2)
    unfold jround
    push_cast at h ⊢
    linarith
  · have h := Int.floor_le (rawScore f w + 1/2)
    unfold jround
    push_cast at h ⊢
    linarith
  · exact le_max_left 0 _
  · exact max_le (by norm_num) (min_le_left _ _)

/-- C2: tier assignment is a total function of the integer score with
inclusive boundaries — at most 30 gives Low, 31 to 60 gives Medium, at
least 61 gives High — with the four boundary points exact. -/
theorem tier_thresholds (s : ℤ) :
    (s ≤ 30 → tier s = Tier.Low) ∧
    (31 ≤ s → s ≤ 60 → tier s = Tier.Medium) ∧
    (61 ≤ s → tier s = Tier.High) ∧
    tier 30 = Tier.Low ∧ tier 31 = Tier.Medium ∧
    tier 60 = Tier.Medium ∧ tier 61 = Tier.High := by
  refine ⟨fun h => ?_, fun h1 h2 => ?_, fun h => ?_,
    by decide, by decide, by decide, by decide⟩
  · simp [tier, h]
  · have h30 : ¬s ≤ 30 := by omega
    simp [tier, h30, h2]
  · have h30 : ¬s ≤ 30 := by omega
    have h60 : ¬s ≤ 60 := by omega
    simp [tier, h30, h60]

/-- Witness for C2 at the concrete scores 25, 45 and 75. -/
theorem tier_thresholds_witness :
    tier 25 = Tier.Low ∧ tier 45 = Tier.Medium ∧ tier 75 = Tier.High :=
  ⟨(tier_thresholds 25).1 (by decide),
   (tier_thresholds 45).2.1 (by decide) (by decide),
   (tier_thresholds 75).2.2.1 (by decide)⟩

/-- C3 counterexample: the table keys of `score.ts` lines 88–93 are
`"< 500"` and `"> 5,000"`, with a space after the comparison sign, so the
spaceless strings named by the claim are not in the table and fall to the
default 60 instead of 70 and 10; and the claimed universal default is
false too — the non-table string `"toString"` hits an inherited
`Object.prototype` property, the `?? 60` default does not fire, and the
factor is not 60 (not a number at all). -/
theorem networkRisk_no_space_key_defaults :
    networkRisk (mkPayload 3 3 "<500" "Yes" (some 30) 5) = 60 ∧
    networkRisk (mkPayload 3 3 ">5,000" "Yes" (some 30) 5) = 60 ∧
    (60 : ℚ) ≠ 70 ∧ (60 : ℚ) ≠ 10 ∧
    networkRiskJs "<500" = some 60 ∧
    networkRiskJs ">5,000" = some 60 ∧
    networkRiskJs "toString" = none ∧
    ∀ q : ℚ, networkRiskJs "toString" ≠ some q := by
  exact ⟨by decide, by decide, by norm_num, by norm_num, by decide, by decide,
    by decide, fun q h => by simp [networkRiskJs, networkMapJs, networkMap,
      objectProtoKeys] at h⟩

/-- C3 amended: the bracket lookup of linkedinNetworkSize behaves as
follows — the four own keys of the bucket table, `"< 500"` to 70,
`"500–1,000"` to 50, `"1,001–5,000"` to 30 and `"> 5,000"` to 10 (note the
spaces after the comparison signs), return their value; every string that
is neither one of those keys nor an `Object.prototype` property name
returns the default 60 (a default, not an error); the twelve inherited
`Object.prototype` property names read a non-nullish inherited non-number,
so the default does not apply and the factor is not a number.  Off the
inherited names, the rational-valued `networkRisk` of the factor pipeline
agrees with the full model. -/
theorem networkRisk_bucket_table (s : String) :
    (s = "< 500" → networkRiskJs s = some 70) ∧
    (s = "500–1,000" → networkRiskJs s = some 50) ∧
    (s = "1,001–5,000" → networkRiskJs s = some 30) ∧
    (s = "> 5,000" → networkRiskJs s = some 10) ∧
    (s ≠ "< 500" → s ≠ "500–1,000" → s ≠ "1,001–5,000" → s ≠ "> 5,000" →
      s ∉ objectProtoKeys → networkRiskJs s = some 60) ∧
    (s ∈ objectProtoKeys → networkRiskJs s = none) ∧
    (s ∉ objectProtoKeys → ∀ p : Payload, p.linkedinNetworkSize = s →
      networkRiskJs s = some (networkRisk p)) := by
  refine ⟨fun h => by subst h; decide, fun h => by subst h; decide,
    fun h => by subst h; decide, fun h => by subst h; decide,
    fun h1 h2 h3 h4 h5 => ?_, fun h => ?_, fun hproto p hp => ?_⟩
  · have hm : networkMap s = none := by simp [networkMap, h1, h2, h3, h4]
    simp [networkRiskJs, networkMapJs, hm, h5]
  · simp only [objectProtoKeys, List.mem_cons, List.not_mem_nil, or_false] at h
    rcases h with rfl | rfl | rfl | rfl | rfl | rfl | rfl | rfl | rfl | rfl | rfl | rfl <;>
      decide
  · rw [networkRisk, hp]
    cases hq : networkMap s with
    | some q => simp [networkRiskJs, networkMapJs, hq]
    | none => simp [networkRiskJs, networkMapJs, hq, hproto]

/-- Witness for C3 amended at a table key, an unknown bucket, an inherited
`Object.prototype` name, and the pipeline bridge at the base payload. -/
theorem networkRisk_bucket_table_witness :
    networkRiskJs "< 500" = some 70 ∧
    networkRiskJs "unknown" = some 60 ∧
    networkRiskJs "toString" = none ∧
    networkRiskJs basePayload.linkedinNetworkSize = some (networkRisk basePayload) :=
  ⟨(networkRisk_bucket_table "< 500").1 rfl,
   (networkRisk_bucket_table "unknown").2.2.2.2.1 (by decide) (by decide)
     (by decide) (by decide) (by decide),
   (networkRisk_bucket_table "toString").2.2.2.2.2.1 (by decide),
   (networkRisk_bucket_table basePayload.linkedinNetworkSize).2.2.2.2.2.2
     (by decide) basePayload rfl⟩

/-- C4: noticeRisk is the first-match-wins step function of the
notice-period days — at least 90 gives 80, then at least 60 gives 70, then
at least 30 gives 50, then at least 15 gives 30, then at least 7 gives 20,
otherwise 10 — a missing noticePeriodDays is treated as 30 days and so
gives 50, and concretely 89 gives 70, 90 gives 80 and 0 gives 10. -/
theorem noticeRisk_step_function (p : Payload) :
    (90 ≤ noticeDays p → noticeRisk p = 80) ∧
    (60 ≤ noticeDays p → noticeDays p < 90 → noticeRisk p = 70) ∧
    (30 ≤ noticeDays p → noticeDays p < 60 → noticeRisk p = 50) ∧
    (15 ≤ noticeDays p → noticeDays p < 30 → noticeRisk p = 30) ∧
    (7 ≤ noticeDays p → noticeDays p < 15 → noticeRisk p = 20) ∧
    (noticeDays p < 7 → noticeRisk p = 10) ∧
    (p.noticePeriodDays = none → noticeDays p = 30 ∧ noticeRisk p = 50) ∧
    noticeRisk (mkPayload 3 3 "500–1,000" "Yes" (some 89) 5) = 70 ∧
    noticeRisk (mkPayload 3 3 "500–1,000" "Yes" (some 90) 5) = 80 ∧
    noticeRisk (mkPayload 3 3 "500–1,000" "Yes" (some 0) 5) = 10 := by
  refine ⟨fun h => ?_, fun h1 h2 => ?_, fun h1 h2 => ?_, fun h1 h2 => ?_,
    fun h1 h2 => ?_, fun h => ?_, fun h => ?_, by decide, by decide, by decide⟩
  · simp [noticeRisk, h]
  · have : ¬90 ≤ noticeDays p := by linarith
    simp [noticeRisk, this, h1]
  · have n90 : ¬90 ≤ noticeDays p := by linarith
    have n60 : ¬60 ≤ noticeDays p := by linarith
    simp [noticeRisk, n90, n60, h1]
  · have n90 : ¬90 ≤ noticeDays p := by linarith
    have n60 : ¬60 ≤ noticeDays p := by linarith
    have n30 : ¬30 ≤ noticeDays p := by linarith
    simp [noticeRisk, n90, n60, n30, h1]
  · have n90 : ¬90 ≤ noticeDays p := by linarith
    have n60 : ¬60 ≤ noticeDays p := by linarith
    have n30 : ¬30 ≤ noticeDays p := by linarith
    have n15 : ¬15 ≤ noticeDays p := by linarith
    simp [noticeRisk, n90, n60, n30, n15, h1]
  · have n90 : ¬90 ≤ noticeDays p := by linarith
    have n60 : ¬60 ≤ noticeDays p := by linarith
    have n30 : ¬30 ≤ noticeDays p := by linarith
    have n15 : ¬15 ≤ noticeDays p := by linarith
    have n7 : ¬7 ≤ noticeDays p := by linarith
    simp [noticeRisk, n90, n60, n30, n15, n7]
  · have hd : noticeDays p = 30 := by simp [noticeDays, h]
    exact ⟨hd, by norm_num [noticeRisk, hd]⟩

/-- Witness for C4 at concrete notice periods of 45 days and a missing value. -/
theorem noticeRisk_step_function_witness :
    noticeRisk (mkPayload 3 3 "500–1,000" "Yes" (some 45) 5) = 50 ∧
    noticeRisk (mkPayload 3 3 "500–1,000" "Yes" none 5) = 50 :=
  ⟨(noticeRisk_step_function _).2.2.1 (by decide) (by decide),
   ((noticeRisk_step_function (mkPayload 3 3 "500–1,000" "Yes" none 5)).2.2.2.2.2.2.1 rfl).2⟩

/-- C5 counterexample: `score.ts` lines 86–87 do not clamp the proficiency
or rating to the interval from 0 to 5 — at skillProficiencyAvg 6 the code
yields −20, which is outside the interval from 0 to 100 and differs from
the value 0 that the claimed clamped formula predicts. -/
theorem skillsRisk_out_of_range_input :
    skillsRisk (mkPayload 6 3 "500–1,000" "Yes" (some 30) 5) = -20 ∧
    ¬(0 ≤ skillsRisk (mkPayload 6 3 "500–1,000" "Yes" (some 30) 5)) ∧
    100 - max 0 (min 5 (6 : ℚ)) / 5 * 100 = 0 ∧
    skillsRisk (mkPayload 6 3 "500–1,000" "Yes" (some 30) 5) ≠
      100 - max 0 (min 5 (6 : ℚ)) / 5 * 100 := by
  have h : skillsRisk (mkPayload 6 3 "500–1,000" "Yes" (some 30) 5) = -20 := by
    norm_num [skillsRisk, mkPayload]
  have hmin : min (5 : ℚ) 6 = 5 := min_eq_left (by norm_num)
  have hmax : max (0 : ℚ) 5 = 5 := max_eq_right (by norm_num)
  refine ⟨h, by rw [h]; norm_num, by rw [hmin, hmax]; norm_num, ?_⟩
  rw [h, hmin, hmax]
  norm_num

/-- C5 amended: the factor calculator is total — skillsRisk and
performanceRisk are the unclamped linear maps 100 − (value/5)·100 of the
raw inputs, and they lie in the interval from 0 to 100 whenever the input
lies in the interval from 0 to 5 (out-of-range inputs produce out-of-range
sub-scores, there is no defensive clamp). -/
theorem factor_risks_linear_no_clamp (p : Payload) :
    skillsRisk p = 100 - p.skillProficiencyAvg / 5 * 100 ∧
    performanceRisk p = 100 - p.performanceRating / 5 * 100 ∧
    (0 ≤ p.skillProficiencyAvg → p.skillProficiencyAvg ≤ 5 →
      0 ≤ skillsRisk p ∧ skillsRisk p ≤ 100) ∧
    (0 ≤ p.performanceRating → p.performanceRating ≤ 5 →
      0 ≤ performanceRisk p ∧ performanceRisk p ≤ 100) := by
  refine ⟨rfl, rfl, fun h1 h2 => ⟨?_, ?_⟩, fun h1 h2 => ⟨?_, ?_⟩⟩ <;>
    simp only [skillsRisk, performanceRisk] <;> linarith

/-- Witness for C5 amended at the in-range base payload. -/
theorem factor_risks_linear_no_clamp_witness :
    0 ≤ skillsRisk basePayload ∧ skillsRisk basePayload ≤ 100 :=
  (factor_risks_linear_no_clamp basePayload).2.2.1 (by decide) (by decide)

/-- C6 counterexample: a row whose `weights` value is present but
malformed (five of the six coefficients missing) is used as-is by
`wdata?.weights ?? DEFAULT_WEIGHTS` — the resolved value is the malformed
object, not the built-in default. -/
theorem resolveWeights_malformed_used_as_is :
    resolveWeights (some (some malformedWeights)) = malformedWeights ∧
    resolveWeights (some (some malformedWeights)) ≠ looseOf DEFAULT_WEIGHTS := by
  refine ⟨rfl, fun hcontra => ?_⟩
  have hperf := congrArg LooseWeights.performance hcontra
  simp [resolveWeights, malformedWeights, looseOf, DEFAULT_WEIGHTS] at hperf

/-- C6 amended: weight resolution never raises, and whenever the storage
query yields no row or a row whose `weights` field is null or absent, the
resolved vector is the built-in default with skills 0.28, performance 0.22,
network 0.18, mobility 0.12, notice 0.12 and plateau 0.08; a row with a
present `weights` value — well-formed or not — is used exactly as stored. -/
theorem resolveWeights_default_on_missing :
    resolveWeights none = looseOf DEFAULT_WEIGHTS ∧
    resolveWeights (some none) = looseOf DEFAULT_WEIGHTS ∧
    (∀ lw : LooseWeights, resolveWeights (some (some lw)) = lw) ∧
    looseOf DEFAULT_WEIGHTS =
      ⟨some 0.28, some 0.22, some 0.18, some 0.12, some 0.12, some 0.08⟩ :=
  ⟨rfl, rfl, fun _ => rfl, rfl⟩

/-- C7 counterexample: on the non-JSON text whose first line is blank,
`score.ts` line 142 slices the first five lines before filtering, yielding
four recommendations, whereas the first five non-empty trimmed lines of
the text are five — the two disagree. -/
theorem fallback_recommendations_blank_first_line :
    fallbackRecommendations blankFirstLineText = ["a", "b", "c", "d"] ∧
    firstFiveNonEmptyTrimmedLines blankFirstLineText = ["a", "b", "c", "d", "e"] ∧
    fallbackRecommendations blankFirstLineText ≠
      firstFiveNonEmptyTrimmedLines blankFirstLineText := by
  exact ⟨by decide, by decide, by decide⟩

/-- C7 amended: on a JSON-parse failure the narrative client uses the
entire raw text as the narrative, and the recommendations are the
non-empty trimmed strings among the first five lines of the raw text
(slice first, then trim and filter), hence never more than five. -/
theorem fallback_parse_behavior (raw : String) :
    parseNarrative raw JsonParseResult.err =
      ⟨some raw, (((splitNl raw).take 5).map jsTrim).filter jsNonEmpty⟩ ∧
    (parseNarrative raw JsonParseResult.err).recommendations.length ≤ 5 :=
  ⟨rfl, fallbackRecommendations_length_le raw⟩

/-- C8 counterexample: a successful JSON response carrying six
recommendations reaches the NarrativeResult uncapped — the list has six
entries, more than five. -/
theorem json_recommendations_uncapped :
    5 < (narrativeResult (ServiceOutcome.ok sixRecJsonText
      (JsonParseResult.ok (some "n")
        (some ["r1", "r2", "r3", "r4", "r5", "r6"])))).recommendations.length := by
  decide

/-- C8 amended: the recommendation list has at most five entries in the
non-JSON fallback outcome and in the call-failure outcome (where it is
empty), but in the successful-JSON outcome it is exactly the parsed
`recommendations` array with no cap applied — the bound of five is only
requested in the prompt, never enforced. -/
theorem recommendations_cap_by_outcome :
    (∀ raw : String,
      (parseNarrative raw JsonParseResult.err).recommendations.length ≤ 5) ∧
    (narrativeResult ServiceOutcome.callFailure).recommendations = [] ∧
    (∀ (raw : String) (n : Option String) (r : Option (List String)),
      (parseNarrative raw (JsonParseResult.ok n r)).recommendations = r.getD []) :=
  ⟨fun raw => fallbackRecommendations_length_le raw, rfl, fun _ _ _ => rfl⟩

/-- C9: persistence failures are asymmetric — a failing primary `profiles`
insert turns the whole response into the server error carrying the insert's
message, for every profile, weight vector and narrative outcome (so even
when scoring succeeded), while the outcome of the secondary `llm_outputs`
insert never changes the caller-visible success response. -/
theorem persistence_failure_asymmetry (p : Payload) (w : WeightVector)
    (o : ServiceOutcome) (msg rowId : String) (s s1 s2 : Except Unit Unit) :
    handlerTail p w o (Except.error msg) s = ApiResponse.serverError msg ∧
    handlerTail p w o (Except.ok rowId) s1 = handlerTail p w o (Except.ok rowId) s2 :=
  ⟨rfl, rfl⟩

/-- C10: the returned score, tier and six-entry explainability list depend
only on the profile and the resolved weight vector — two executions with
the same profile and weights agree on those three response fields whatever
the narrative service returned (or whether its call failed) and whatever
the secondary persistence outcome was, and those fields equal the values
computed from the profile and weights alone. -/
theorem score_tier_explainability_independent_of_narrative
    (p : Payload) (w : WeightVector) (o1 o2 : ServiceOutcome)
    (rowId1 rowId2 : String) (s1 s2 : Except Unit Unit) :
    respScore (handlerTail p w o1 (Except.ok rowId1) s1) =
      respScore (handlerTail p w o2 (Except.ok rowId2) s2) ∧
    respTier (handlerTail p w o1 (Except.ok rowId1) s1) =
      respTier (handlerTail p w o2 (Except.ok rowId2) s2) ∧
    respExplain (handlerTail p w o1 (Except.ok rowId1) s1) =
      respExplain (handlerTail p w o2 (Except.ok rowId2) s2) ∧
    respScore (handlerTail p w o1 (Except.ok rowId1) s1) =
      some (score (computeFactors p) w) ∧
    respTier (handlerTail p w o1 (Except.ok rowId1) s1) =
      some (tier (score (computeFactors p) w)) ∧
    respExplain (handlerTail p w o1 (Except.ok rowId1) s1) =
      some (explainability p) ∧
    (explainability p).length = 6 :=
  ⟨rfl, rfl, rfl, rfl, rfl, rfl, rfl⟩

end CareerRisk
